import Mathlib

/-!
# Verification of the FastAPI + Redis session-authentication service

Shallow embedding of `src/app/main.py`: a session-based authentication
service with a SQL credential store (`users` table), a Redis session store,
bcrypt password hashing via passlib, and five HTTP handlers
(`register`, `login`, `logout`, `home`, `protected`).

Modelling conventions:
- Randomness (the bcrypt salt, `secrets.token_urlsafe`) is made an explicit
  input parameter.
- Time is an explicit `Nat` parameter `now` (seconds); Redis TTL expiry is
  modelled by storing an absolute expiry instant with each entry.
- A Redis connection failure (redis-py raising `ConnectionError`, which the
  handlers do not catch) is modelled by an `avail` flag on the store and by
  every store operation returning `Except StoreErr`; an uncaught Python
  exception is an `Except.error` propagating out of the handler.
- The passlib bcrypt hasher is external library code, not part of the
  repository; it is modelled from the spec (see `pwdHash`).
-/

/-- Error raised by a Redis operation when the store is unreachable
(redis-py `ConnectionError`). -/
inductive StoreErr where
  | unavailable
deriving DecidableEq, Repr

/-- Modelled from the spec: the self-describing bcrypt hash string produced
by passlib (`pwd_context = CryptContext(schemes=["bcrypt"])`), parsed into
its components: algorithm scheme, cost/work factor, salt, and digest.  The
source stores this as a string column `password_hash`; the model keeps it as
the parsed record. -/
structure HashStr where
  scheme : String
  cost : Nat
  salt : Nat
  digest : Nat
deriving DecidableEq, Repr

/-- Injective encoding of a list of naturals into a natural, used to model
the bcrypt digest as a function of the plaintext. -/
def encodeList : List Nat → Nat
  | [] => 0
  | c :: l => Nat.pair c (encodeList l) + 1

/-- Modelled from the spec: the bcrypt digest as a deterministic function of
plaintext and salt, injective in the plaintext for a fixed salt (so that
`verify(p1, hash(p2))` is false for `p1 ≠ p2`, the spec's "overwhelming
probability" made exact). -/
def bcryptDigest (password : String) (salt : Nat) : Nat :=
  Nat.pair salt (encodeList (password.data.map Char.toNat))

/-- Modelled from the spec: `pwd_context.hash(password)` with the random
salt made explicit.  Produces the self-describing hash record. -/
def pwdHash (password : String) (salt : Nat) : HashStr :=
  ⟨"2b", 12, salt, bcryptDigest password salt⟩

/-- Modelled from the spec: `pwd_context.verify(password, hash)` recomputes
the digest from the candidate plaintext and the stored salt and compares. -/
def pwdVerify (password : String) (h : HashStr) : Bool :=
  h.scheme == "2b" && h.digest == bcryptDigest password h.salt

/-- `class User(Base)`: a row of the `users` table — auto-increment integer
primary key `id`, unique `username`, and `password_hash`. -/
structure User where
  id : Nat
  username : String
  password_hash : HashStr
deriving DecidableEq, Repr

/-- The credential store (`users` table): the rows plus the auto-increment
counter for the next primary key. -/
structure DB where
  users : List User
  nextId : Nat
deriving DecidableEq, Repr

/-- The empty database, as created by `Base.metadata.create_all`
(auto-increment ids start at 1). -/
def DB.empty : DB := ⟨[], 1⟩

/-- `select(User).where(User.username == username)` followed by
`scalar_one_or_none()` (the unique constraint guarantees at most one row). -/
def findByUsername (db : DB) (username : String) : Option User :=
  db.users.find? (fun u => u.username == username)

/-- `select(User).where(User.id == id)` followed by `scalar_one_or_none()`. -/
def findById (db : DB) (id : Nat) : Option User :=
  db.users.find? (fun u => u.id == id)

/-- `create_user(db, username, password)` (main.py lines 49-55): hashes the
password, inserts the row, commits (assigning the auto-increment id), and
returns the new user.  The bcrypt salt is an explicit parameter. -/
def create_user (db : DB) (username password : String) (salt : Nat) :
    DB × User :=
  let hashed := pwdHash password salt
  let user : User := ⟨db.nextId, username, hashed⟩
  (⟨db.users ++ [user], db.nextId + 1⟩, user)

/-- `authenticate_user(db, username, password)` (main.py lines 57-64):
look up by username; `None` if absent; `None` if the password does not
verify against the stored hash; otherwise the user. -/
def authenticate_user (db : DB) (username password : String) : Option User :=
  match findByUsername db username with
  | none => none
  | some user =>
    if pwdVerify password user.password_hash then some user else none

/-- One Redis key with its value and absolute expiry instant
(`setex` stores a value with a TTL). -/
structure RedisEntry where
  key : String
  value : Nat
  expiresAt : Nat
deriving DecidableEq, Repr

/-- The Redis session store: an availability flag (the network boundary that
may fail) and the live entries. -/
structure Redis where
  avail : Bool
  entries : List RedisEntry
deriving DecidableEq, Repr

/-- `r.get(key)` at instant `now`: the stored value if the key is present
and not yet expired, `None` otherwise; raises when unreachable.  (The source
stores the integer user id, returned by redis-py as its decimal string and
parsed back with `int(...)`; this lossless round trip is elided and the
value kept as a `Nat`.) -/
def Redis.get (r : Redis) (key : String) (now : Nat) :
    Except StoreErr (Option Nat) :=
  if r.avail then
    .ok ((r.entries.find? (fun e => e.key == key && now < e.expiresAt)).map
      (fun e => e.value))
  else .error .unavailable

/-- `r.setex(key, ttl, value)` at instant `now`: writes the key with expiry
`now + ttl`, overwriting any previous entry for the key; raises when
unreachable. -/
def Redis.setex (r : Redis) (key : String) (ttl : Nat) (value : Nat)
    (now : Nat) : Except StoreErr Redis :=
  if r.avail then
    .ok ⟨r.avail,
      ⟨key, value, now + ttl⟩ :: r.entries.filter (fun e => !(e.key == key))⟩
  else .error .unavailable

/-- `r.delete(key)`: removes the key, a no-op if absent; raises when
unreachable. -/
def Redis.del (r : Redis) (key : String) : Except StoreErr Redis :=
  if r.avail then
    .ok ⟨r.avail, r.entries.filter (fun e => !(e.key == key))⟩
  else .error .unavailable

/-- A cookie mutation carried on a response: `response.set_cookie` with its
attributes, or `response.delete_cookie`. -/
inductive CookieOp where
  | set (name value : String) (httpOnly secure : Bool) (sameSite : String)
      (maxAge : Nat)
  | del (name : String)
deriving DecidableEq, Repr

/-- An HTTP response as the handlers build it: status code, redirect target
(for `RedirectResponse`), cookie operations, the `error` string passed to a
re-rendered form template (or the `detail` of an `HTTPException`), and the
`user` passed to a rendered page template. -/
structure Response where
  status : Nat
  redirect : Option String
  cookies : List CookieOp
  error : Option String
  user : Option User
deriving DecidableEq, Repr

/-- The two stores the application composes. -/
structure AppState where
  db : DB
  redis : Redis
deriving DecidableEq, Repr

/-- `set_session_cookie(response, session_id)` (main.py lines 66-74):
cookie `session_id`, HttpOnly, Secure=false, SameSite=lax,
Max-Age = `int(timedelta(days=1).total_seconds())` = 86400. -/
def set_session_cookie (resp : Response) (session_id : String) : Response :=
  ⟨resp.status, resp.redirect,
    resp.cookies ++ [.set "session_id" session_id true false "lax" 86400],
    resp.error, resp.user⟩

/-- `get_current_user(request, db)` (main.py lines 76-84): read the
`session_id` cookie (`if not session_id` also rejects the empty string, by
Python falsiness); `r.get("session:" + session_id)`; if absent, `None`;
otherwise look the user up by id.  A store failure propagates (the handler
does not catch it). -/
def get_current_user (s : AppState) (cookie : Option String) (now : Nat) :
    Except StoreErr (Option User) :=
  match cookie with
  | none => .ok none
  | some session_id =>
    if session_id == "" then .ok none
    else
      match s.redis.get ("session:" ++ session_id) now with
      | .error e => .error e
      | .ok none => .ok none
      | .ok (some uid) => .ok (findById s.db uid)

/-- `POST /register` (main.py lines 95-102).  `Form(...)` marks both fields
required: a missing field is rejected by the framework with a 422
validation error before the handler runs (an empty string is a present,
valid `str` and reaches the handler).  The handler checks for an existing
username (400 on conflict), creates the user, and redirects to `/login`
with 303; no cookie is set and the session store is not touched. -/
def register (s : AppState) (username password : Option String)
    (salt : Nat) : AppState × Response :=
  match username, password with
  | some username, some password =>
    match findByUsername s.db username with
    | some _ => (s, ⟨400, none, [], some "Username already exists", none⟩)
    | none =>
      let db1 := (create_user s.db username password salt).1
      (⟨db1, s.redis⟩, ⟨303, some "/login", [], none, none⟩)
  | _, _ => (s, ⟨422, none, [], some "Field required", none⟩)

/-- `POST /login` (main.py lines 108-119).  Both form fields are required
(422 from the framework when missing).  On authentication failure the
login form is re-rendered with the generic error "Invalid credentials" and
status 401, with no cookie and no store write.  On success a fresh token
(`secrets.token_urlsafe(32)`, here an explicit parameter) is written to
Redis under `session:<token>` with TTL 86400, and a 303 redirect to `/`
carries the session cookie.  A Redis write failure propagates: no response
is produced and no cookie issued. -/
def login (s : AppState) (username password : Option String)
    (token : String) (now : Nat) :
    Except StoreErr (AppState × Response) :=
  match username, password with
  | some username, some password =>
    match authenticate_user s.db username password with
    | none => .ok (s, ⟨401, none, [], some "Invalid credentials", none⟩)
    | some user =>
      match s.redis.setex ("session:" ++ token) 86400 user.id now with
      | .error e => .error e
      | .ok r1 =>
        .ok (⟨s.db, r1⟩,
          set_session_cookie ⟨303, some "/", [], none, none⟩ token)
  | _, _ => .ok (s, ⟨422, none, [], some "Field required", none⟩)

/-- `GET /logout` (main.py lines 121-128): if a (non-empty, by Python
falsiness) `session_id` cookie is present, delete the store entry; always
redirect to `/` with 303 and delete the cookie.  A Redis failure during the
delete propagates. -/
def logout (s : AppState) (cookie : Option String) :
    Except StoreErr (AppState × Response) :=
  let resp : Response := ⟨303, some "/", [.del "session_id"], none, none⟩
  match cookie with
  | none => .ok (s, resp)
  | some session_id =>
    if session_id == "" then .ok (s, resp)
    else
      match s.redis.del ("session:" ++ session_id) with
      | .error e => .error e
      | .ok r1 => .ok (⟨s.db, r1⟩, resp)

/-- `GET /` (main.py lines 86-89): render the home page with the resolved
user, present or absent. -/
def home (s : AppState) (cookie : Option String) (now : Nat) :
    Except StoreErr (AppState × Response) :=
  match get_current_user s cookie now with
  | .error e => .error e
  | .ok user => .ok (s, ⟨200, none, [], none, user⟩)

/-- `GET /protected` (main.py lines 130-135): render the protected page for
the resolved user, or redirect to `/login` with 303 when unauthenticated. -/
def protectedPage (s : AppState) (cookie : Option String) (now : Nat) :
    Except StoreErr (AppState × Response) :=
  match get_current_user s cookie now with
  | .error e => .error e
  | .ok none => .ok (s, ⟨303, some "/login", [], none, none⟩)
  | .ok (some user) => .ok (s, ⟨200, none, [], none, some user⟩)

/-- One request to the application, with its oracle inputs (form fields,
bcrypt salt, fresh session token, current time, cookie sent by the
client). -/
inductive Event where
  | register (username password : Option String) (salt : Nat)
  | login (username password : Option String) (token : String) (now : Nat)
  | logout (cookie : Option String)
  | home (cookie : Option String) (now : Nat)
  | protectedPage (cookie : Option String) (now : Nat)
deriving DecidableEq, Repr

/-- The state transition of one request: the handler's resulting state, or
the unchanged state when the handler aborted with a store error (the stores
themselves are not modified by a failed operation). -/
def step (s : AppState) : Event → AppState
  | .register u p salt => (register s u p salt).1
  | .login u p tok now =>
    match login s u p tok now with
    | .ok (s1, _) => s1
    | .error _ => s
  | .logout c =>
    match logout s c with
    | .ok (s1, _) => s1
    | .error _ => s
  | .home c now =>
    match home s c now with
    | .ok (s1, _) => s1
    | .error _ => s
  | .protectedPage c now =>
    match protectedPage s c now with
    | .ok (s1, _) => s1
    | .error _ => s

/-- Run a sequence of requests from a state. -/
def run (s : AppState) (evs : List Event) : AppState :=
  evs.foldl step s

/-- The application's initial state: empty `users` table, empty session
store, store reachable. -/
def AppState.init : AppState := ⟨DB.empty, ⟨true, []⟩⟩

/-- A reachable one-user state used as a concrete test fixture: `alice`
registered with password `pw` (salt 0), session store reachable and
empty. -/
def sAlice : AppState :=
  ⟨(create_user DB.empty "alice" "pw" 0).1, ⟨true, []⟩⟩

/-- The same one-user state with the session store unreachable. -/
def sDown : AppState :=
  ⟨(create_user DB.empty "alice" "pw" 0).1, ⟨false, []⟩⟩

/-! ## Helper lemmas -/

theorem encodeList_injective : Function.Injective encodeList := by
  intro l1
  induction l1 with
  | nil =>
    intro l2 h
    cases l2 with
    | nil => rfl
    | cons d m => simp [encodeList] at h
  | cons c l ih =>
    intro l2 h
    cases l2 with
    | nil => simp [encodeList] at h
    | cons d m =>
      simp only [encodeList, Nat.add_right_cancel_iff] at h
      obtain ⟨hc, hl⟩ := Nat.pair_eq_pair.mp h
      rw [hc, ih hl]

theorem char_toNat_injective : Function.Injective Char.toNat := by
  intro a b h
  exact Char.eq_of_val_eq (UInt32.ext h)

theorem string_data_injective : Function.Injective String.data := by
  intro s t h
  cases s
  cases t
  exact congrArg String.mk h

/-- For a fixed salt the modelled bcrypt digest determines the plaintext. -/
theorem bcryptDigest_inj {p1 p2 : String} {salt : Nat}
    (h : bcryptDigest p1 salt = bcryptDigest p2 salt) : p1 = p2 := by
  unfold bcryptDigest at h
  have h2 := (Nat.pair_eq_pair.mp h).2
  have h3 := encodeList_injective h2
  have h4 := (List.map_injective_iff.mpr char_toNat_injective) h3
  exact string_data_injective h4

theorem setex_ok (r : Redis) (k : String) (ttl v t : Nat)
    (h : r.avail = true) :
    r.setex k ttl v t =
      .ok ⟨true, ⟨k, v, t + ttl⟩ ::
        r.entries.filter (fun e => !(e.key == k))⟩ := by
  simp [Redis.setex, h]

theorem get_cons_self (entries : List RedisEntry) (k : String)
    (v exp now : Nat) :
    Redis.get ⟨true, ⟨k, v, exp⟩ ::
        entries.filter (fun e => !(e.key == k))⟩ k now =
      .ok (if now < exp then some v else none) := by
  by_cases hlt : now < exp
  · simp [Redis.get, List.find?_cons, hlt]
  · simp [Redis.get, List.find?_cons, hlt]
    intro x _ h1 h2
    exact absurd h2 h1

theorem del_ok (r : Redis) (k : String) (h : r.avail = true) :
    r.del k = .ok ⟨true, r.entries.filter (fun e => !(e.key == k))⟩ := by
  simp [Redis.del, h]

theorem get_filter_ne (entries : List RedisEntry) (k : String) (now : Nat) :
    Redis.get ⟨true, entries.filter (fun e => !(e.key == k))⟩ k now =
      .ok none := by
  simp [Redis.get]
  intro x _ h1 h2
  exact absurd h2 h1

/-- A `GET /protected` request never modifies the stores. -/
theorem protectedPage_state_eq (s : AppState) (cookie : Option String)
    (now : Nat) (s2 : AppState) (r2 : Response)
    (h : protectedPage s cookie now = .ok (s2, r2)) : s2 = s := by
  unfold protectedPage at h
  cases hg : get_current_user s cookie now with
  | error e => rw [hg] at h; exact Except.noConfusion h
  | ok o =>
    rw [hg] at h
    cases o with
    | none =>
      simp only [Except.ok.injEq, Prod.mk.injEq] at h
      exact h.1.symm
    | some w =>
      simp only [Except.ok.injEq, Prod.mk.injEq] at h
      exact h.1.symm

/-- A `GET /` request never modifies the stores. -/
theorem home_state_eq (s : AppState) (cookie : Option String)
    (now : Nat) (s2 : AppState) (r2 : Response)
    (h : home s cookie now = .ok (s2, r2)) : s2 = s := by
  unfold home at h
  cases hg : get_current_user s cookie now with
  | error e => rw [hg] at h; exact Except.noConfusion h
  | ok o =>
    rw [hg] at h
    simp only [Except.ok.injEq, Prod.mk.injEq] at h
    exact h.1.symm

/-- A login never modifies the `users` table. -/
theorem login_db_eq (s : AppState) (u? p? : Option String) (tok : String)
    (now : Nat) (s1 : AppState) (r : Response)
    (h : login s u? p? tok now = .ok (s1, r)) : s1.db = s.db := by
  cases u? with
  | none =>
    cases p? with
    | none =>
      simp only [login, Except.ok.injEq, Prod.mk.injEq] at h
      rw [← h.1]
    | some p =>
      simp only [login, Except.ok.injEq, Prod.mk.injEq] at h
      rw [← h.1]
  | some u =>
    cases p? with
    | none =>
      simp only [login, Except.ok.injEq, Prod.mk.injEq] at h
      rw [← h.1]
    | some p =>
      cases hauth : authenticate_user s.db u p with
      | none =>
        simp only [login, hauth, Except.ok.injEq, Prod.mk.injEq] at h
        rw [← h.1]
      | some user =>
        simp only [login, hauth] at h
        cases hset : s.redis.setex ("session:" ++ tok) 86400 user.id now with
        | error e => rw [hset] at h; exact Except.noConfusion h
        | ok r1 =>
          rw [hset] at h
          simp only [Except.ok.injEq, Prod.mk.injEq] at h
          rw [← h.1]

/-- A logout never modifies the `users` table. -/
theorem logout_db_eq (s : AppState) (cookie : Option String)
    (s1 : AppState) (r : Response)
    (h : logout s cookie = .ok (s1, r)) : s1.db = s.db := by
  cases cookie with
  | none =>
    simp only [logout, Except.ok.injEq, Prod.mk.injEq] at h
    rw [← h.1]
  | some sid =>
    by_cases hs : (sid == "") = true
    · simp only [logout, hs, if_true, Except.ok.injEq, Prod.mk.injEq] at h
      rw [← h.1]
    · simp only [Bool.not_eq_true] at hs
      simp only [logout, hs, Bool.false_eq_true, if_false] at h
      cases hdel : s.redis.del ("session:" ++ sid) with
      | error e => rw [hdel] at h; exact Except.noConfusion h
      | ok r1 =>
        rw [hdel] at h
        simp only [Except.ok.injEq, Prod.mk.injEq] at h
        rw [← h.1]

/-- One step adds `users` rows only through a registration, and any row it
adds carries the bcrypt hash of the submitted password. -/
theorem step_users (s : AppState) (ev : Event) (u : User)
    (h : u ∈ (step s ev).db.users) :
    u ∈ s.db.users ∨ ∃ uname pw salt,
      ev = .register (some uname) (some pw) salt ∧
      u.username = uname ∧ u.password_hash = pwdHash pw salt := by
  cases ev with
  | register u? p? salt =>
    cases u? with
    | none =>
      left
      cases p? <;> exact h
    | some uname =>
      cases p? with
      | none => left; exact h
      | some pw =>
        cases hfind : findByUsername s.db uname with
        | some w =>
          left
          simpa [step, register, hfind] using h
        | none =>
          simp only [step, register, hfind, create_user] at h
          rcases List.mem_append.mp h with hmem | hnew
          · exact Or.inl hmem
          · refine Or.inr ⟨uname, pw, salt, rfl, ?_, ?_⟩
            · rw [List.mem_singleton.mp hnew]
            · rw [List.mem_singleton.mp hnew]
  | login u? p? tok now =>
    left
    simp only [step] at h
    cases hl : login s u? p? tok now with
    | error e => rw [hl] at h; exact h
    | ok x =>
      obtain ⟨s1, r1⟩ := x
      rw [hl] at h
      have h2 : u ∈ s1.db.users := h
      rw [login_db_eq s u? p? tok now s1 r1 hl] at h2
      exact h2
  | logout c =>
    left
    simp only [step] at h
    cases hl : logout s c with
    | error e => rw [hl] at h; exact h
    | ok x =>
      obtain ⟨s1, r1⟩ := x
      rw [hl] at h
      have h2 : u ∈ s1.db.users := h
      rw [logout_db_eq s c s1 r1 hl] at h2
      exact h2
  | home c now =>
    left
    simp only [step] at h
    cases hl : home s c now with
    | error e => rw [hl] at h; exact h
    | ok x =>
      obtain ⟨s1, r1⟩ := x
      rw [hl] at h
      have h2 : u ∈ s1.db.users := h
      rw [home_state_eq s c now s1 r1 hl] at h2
      exact h2
  | protectedPage c now =>
    left
    simp only [step] at h
    cases hl : protectedPage s c now with
    | error e => rw [hl] at h; exact h
    | ok x =>
      obtain ⟨s1, r1⟩ := x
      rw [hl] at h
      have h2 : u ∈ s1.db.users := h
      rw [protectedPage_state_eq s c now s1 r1 hl] at h2
      exact h2

/-- Every `users` row reachable from a start state either was already there
or comes from a registration event in the trace, carrying the bcrypt hash
of the password submitted with that registration. -/
theorem run_users (evs : List Event) (s : AppState) (u : User)
    (h : u ∈ (run s evs).db.users) :
    u ∈ s.db.users ∨ ∃ uname pw salt,
      Event.register (some uname) (some pw) salt ∈ evs ∧
      u.username = uname ∧ u.password_hash = pwdHash pw salt := by
  induction evs generalizing s with
  | nil => exact Or.inl h
  | cons ev evs ih =>
    rcases ih (step s ev) h with hmem | ⟨uname, pw, salt, hin, h1, h2⟩
    · rcases step_users s ev u hmem with hmem2 |
        ⟨uname, pw, salt, hev, h1, h2⟩
      · exact Or.inl hmem2
      · refine Or.inr ⟨uname, pw, salt, ?_, h1, h2⟩
        rw [hev]
        exact List.mem_cons_self _ _
    · exact Or.inr ⟨uname, pw, salt, List.mem_cons_of_mem ev hin, h1, h2⟩

/-! ## Claims -/

/-- C1: Session lifecycle round-trip.  For every user, after a successful
login with that user's correct credentials returning session token `tok`,
`current_user(tok)` resolves to that user's record; and after logout (which
revokes the session) with the same token, `current_user(tok)` resolves to
absent. -/
theorem session_lifecycle (s : AppState) (u p tok : String) (now : Nat)
    (user : User)
    (havail : s.redis.avail = true)
    (hauth : authenticate_user s.db u p = some user)
    (hid : findById s.db user.id = some user)
    (htok : tok ≠ "") :
    ∃ s1 resp1, login s (some u) (some p) tok now = .ok (s1, resp1) ∧
      resp1.cookies = [.set "session_id" tok true false "lax" 86400] ∧
      get_current_user s1 (some tok) now = .ok (some user) ∧
      ∃ s2 resp2, logout s1 (some tok) = .ok (s2, resp2) ∧
        get_current_user s2 (some tok) now = .ok none := by
  have hbeq : (tok == "") = false := beq_eq_false_iff_ne.mpr htok
  have hset := setex_ok s.redis ("session:" ++ tok) 86400 user.id now havail
  refine ⟨⟨s.db, ⟨true, ⟨"session:" ++ tok, user.id, now + 86400⟩ ::
      s.redis.entries.filter (fun e => !(e.key == "session:" ++ tok))⟩⟩,
    set_session_cookie ⟨303, some "/", [], none, none⟩ tok, ?_, ?_, ?_, ?_⟩
  · simp [login, hauth, hset]
  · simp [set_session_cookie]
  · have hget := get_cons_self s.redis.entries ("session:" ++ tok)
      user.id (now + 86400) now
    simp [get_current_user, hbeq, hget, Nat.lt_add_of_pos_right, hid]
  · have hdel := del_ok ⟨true, ⟨"session:" ++ tok, user.id, now + 86400⟩ ::
      s.redis.entries.filter (fun e => !(e.key == "session:" ++ tok))⟩
      ("session:" ++ tok) rfl
    refine ⟨⟨s.db, ⟨true, List.filter (fun e => !(e.key == "session:" ++ tok))
        (⟨"session:" ++ tok, user.id, now + 86400⟩ ::
          s.redis.entries.filter (fun e => !(e.key == "session:" ++ tok)))⟩⟩,
      ⟨303, some "/", [.del "session_id"], none, none⟩, ?_, ?_⟩
    · simp [logout, hbeq, hdel]
    · have hget2 := get_filter_ne s.redis.entries ("session:" ++ tok) now
      simp [get_current_user, hbeq, hget2]

/-- C1 witness: the lifecycle at the concrete one-user state. -/
theorem session_lifecycle_witness :
    ∃ s1 resp1,
      login sAlice (some "alice") (some "pw") "tok" 5 = .ok (s1, resp1) ∧
      resp1.cookies = [.set "session_id" "tok" true false "lax" 86400] ∧
      get_current_user s1 (some "tok") 5 =
        .ok (some ⟨1, "alice", pwdHash "pw" 0⟩) ∧
      ∃ s2 resp2, logout s1 (some "tok") = .ok (s2, resp2) ∧
        get_current_user s2 (some "tok") 5 = .ok none :=
  session_lifecycle sAlice "alice" "pw" "tok" 5 ⟨1, "alice", pwdHash "pw" 0⟩
    rfl (by decide) (by decide) (by decide)

/-- C2: login with an unknown username and login with a known username but
wrong password fail with the identical response — status 401, the same
generic "Invalid credentials" message, no cookie set (empty cookie list),
and the state unchanged (no session store entry created). -/
theorem login_failure_uniform (s : AppState)
    (u1 p1 u2 p2 tok1 tok2 : String) (now1 now2 : Nat) (user : User)
    (h1 : findByUsername s.db u1 = none)
    (h2 : findByUsername s.db u2 = some user)
    (h3 : pwdVerify p2 user.password_hash = false) :
    login s (some u1) (some p1) tok1 now1 =
        .ok (s, ⟨401, none, [], some "Invalid credentials", none⟩) ∧
      login s (some u2) (some p2) tok2 now2 =
        .ok (s, ⟨401, none, [], some "Invalid credentials", none⟩) := by
  constructor
  · simp [login, authenticate_user, h1]
  · simp [login, authenticate_user, h2, h3]

/-- C2 witness: `nobody/x` and `alice/wrong` at the concrete one-user
state. -/
theorem login_failure_uniform_witness :
    login sAlice (some "nobody") (some "x") "t1" 0 =
        .ok (sAlice, ⟨401, none, [], some "Invalid credentials", none⟩) ∧
      login sAlice (some "alice") (some "wrong") "t2" 9 =
        .ok (sAlice, ⟨401, none, [], some "Invalid credentials", none⟩) :=
  login_failure_uniform sAlice "nobody" "x" "alice" "wrong" "t1" "t2" 0 9
    ⟨1, "alice", pwdHash "pw" 0⟩ (by decide) (by decide) (by decide)

/-- C3: password hash/verify round-trip.  For every password `p` and salt,
`verify(p, hash(p))` is true; and for distinct passwords `p1 ≠ p2`,
`verify(p1, hash(p2))` is false (the model makes the spec's "overwhelming
probability over the salt" exact via an injective digest). -/
theorem hash_verify_roundtrip :
    (∀ p salt, pwdVerify p (pwdHash p salt) = true) ∧
    (∀ p1 p2 salt, p1 ≠ p2 → pwdVerify p1 (pwdHash p2 salt) = false) := by
  constructor
  · intro p salt
    simp [pwdVerify, pwdHash]
  · intro p1 p2 salt hne
    simp only [pwdVerify, pwdHash, beq_self_eq_true, Bool.true_and,
      beq_eq_false_iff_ne, ne_eq]
    intro h
    exact hne (bcryptDigest_inj h.symm)

/-- C3 witness: distinct concrete passwords do not cross-verify. -/
theorem hash_verify_roundtrip_witness :
    pwdVerify "a" (pwdHash "b" 0) = false :=
  hash_verify_roundtrip.2 "a" "b" 0 (by decide)

/-- C4 counterexample: with the session store unreachable and a session
cookie present, `get_current_user` raises the store error (an uncaught
exception, hence a server error) instead of resolving to "no valid
session" — the claim's "the request proceeds as unauthenticated, never as
a server error" is false of the code, which has no exception handling
around `r.get`. -/
theorem store_down_read_cex :
    get_current_user sDown (some "tok") 0 = .error .unavailable ∧
      get_current_user sDown (some "tok") 0 ≠ .ok none := by
  refine ⟨rfl, ?_⟩
  intro h
  rw [show get_current_user sDown (some "tok") 0 =
    .error .unavailable from rfl] at h
  exact Except.noConfusion h

/-- C4 amended: when the session store is unreachable, a session read with
a cookie present propagates the store error (a server error — never
resolving as authenticated, and not as unauthenticated either); and the
session write during login fails hard: login propagates the error and no
response (hence no cookie) is produced. -/
theorem store_down_behavior :
    (∀ (s : AppState) (cookie : Option String) (now : Nat) (user : User),
        s.redis.avail = false →
        get_current_user s cookie now ≠ .ok (some user)) ∧
    (∀ (s : AppState) (sid : String) (now : Nat),
        s.redis.avail = false → sid ≠ "" →
        get_current_user s (some sid) now = .error .unavailable) ∧
    (∀ (s : AppState) (u p tok : String) (now : Nat) (user : User),
        s.redis.avail = false →
        authenticate_user s.db u p = some user →
        login s (some u) (some p) tok now = .error .unavailable) := by
  refine ⟨?_, ?_, ?_⟩
  · intro s cookie now user hav
    cases cookie with
    | none => simp [get_current_user]
    | some sid =>
      by_cases hs : (sid == "") = true
      · simp [get_current_user, hs]
      · simp only [Bool.not_eq_true] at hs
        simp [get_current_user, hs, Redis.get, hav]
  · intro s sid now hav hsid
    simp [get_current_user, beq_eq_false_iff_ne.mpr hsid, Redis.get, hav]
  · intro s u p tok now user hav hauth
    simp [login, hauth, Redis.setex, hav]

/-- C4 witness: the amended behavior at the concrete unreachable-store
state. -/
theorem store_down_behavior_witness :
    get_current_user sDown (some "tok") 3 ≠
        .ok (some ⟨1, "alice", pwdHash "pw" 0⟩) ∧
      get_current_user sDown (some "tok") 3 = .error .unavailable ∧
      login sDown (some "alice") (some "pw") "tok" 0 = .error .unavailable :=
  ⟨store_down_behavior.1 sDown (some "tok") 3 ⟨1, "alice", pwdHash "pw" 0⟩
      rfl,
    store_down_behavior.2.1 sDown "tok" 3 rfl (by decide),
    store_down_behavior.2.2 sDown "alice" "pw" "tok" 0
      ⟨1, "alice", pwdHash "pw" 0⟩ rfl (by decide)⟩

/-- C5: registering a username that already exists fails with status 400
and the "Username already exists" detail, and leaves the whole state — in
particular the existing user's stored id, username and password hash —
unchanged. -/
theorem register_duplicate_username (s : AppState) (u p : String)
    (salt : Nat) (user : User) (h : findByUsername s.db u = some user) :
    register s (some u) (some p) salt =
      (s, ⟨400, none, [], some "Username already exists", none⟩) := by
  simp [register, h]

/-- C5 witness: re-registering `alice` at the concrete one-user state. -/
theorem register_duplicate_username_witness :
    register sAlice (some "alice") (some "x") 3 =
      (sAlice, ⟨400, none, [], some "Username already exists", none⟩) :=
  register_duplicate_username sAlice "alice" "x" 3
    ⟨1, "alice", pwdHash "pw" 0⟩ (by decide)

/-- C6 counterexample: registering with both fields present but EMPTY
succeeds — it creates a user with empty username and the hash of the empty
password and redirects with 303 — rather than failing with a validation
error, refuting the claim that empty fields fail with ValidationError and
create no record.  (`Form(...)` only makes the fields required; an empty
string is a valid `str`.) -/
theorem register_empty_fields_cex :
    register AppState.init (some "") (some "") 0 =
      (⟨⟨[⟨1, "", pwdHash "" 0⟩], 2⟩, ⟨true, []⟩⟩,
        ⟨303, some "/login", [], none, none⟩) := by
  decide

/-- C6 amended: register fails with a validation error (the framework's
422 for a missing required form field) and creates no user record exactly
when the username or the password field is MISSING from the form; empty
string values are accepted. -/
theorem register_missing_fields (s : AppState) (u? p? : Option String)
    (salt : Nat) (h : u? = none ∨ p? = none) :
    register s u? p? salt =
      (s, ⟨422, none, [], some "Field required", none⟩) := by
  rcases h with h | h
  · subst h
    cases p? <;> rfl
  · subst h
    cases u? <;> rfl

/-- C6 witness: a form with no username field is rejected with 422 and no
state change. -/
theorem register_missing_fields_witness :
    register AppState.init none (some "pw") 0 =
      (AppState.init, ⟨422, none, [], some "Field required", none⟩) :=
  register_missing_fields AppState.init none (some "pw") 0 (Or.inl rfl)

/-- C7: successful registration does not authenticate: the response is a
303 redirect to `/login` with no cookie operations, and the session store
is untouched (no session entry created). -/
theorem register_no_auto_auth (s : AppState) (u p : String) (salt : Nat)
    (h : findByUsername s.db u = none) :
    (register s (some u) (some p) salt).2 =
        ⟨303, some "/login", [], none, none⟩ ∧
      (register s (some u) (some p) salt).1.redis = s.redis := by
  simp [register, h]

/-- C7 witness: registering `alice` from the initial state. -/
theorem register_no_auto_auth_witness :
    (register AppState.init (some "alice") (some "pw") 0).2 =
        ⟨303, some "/login", [], none, none⟩ ∧
      (register AppState.init (some "alice") (some "pw") 0).1.redis =
        AppState.init.redis :=
  register_no_auto_auth AppState.init "alice" "pw" 0 (by decide)

/-- C8: no sliding expiration.  A session written by a login at time `t` is
resolvable exactly while `now < t + 86400`, independent of reads; and the
session-reading requests (`GET /protected`, `GET /`) never modify the
stores, so no read refreshes or extends the TTL. -/
theorem fixed_ttl_no_sliding (s : AppState) (u p tok : String) (t : Nat)
    (user : User)
    (havail : s.redis.avail = true)
    (hauth : authenticate_user s.db u p = some user) :
    ∃ s1 resp1, login s (some u) (some p) tok t = .ok (s1, resp1) ∧
      (∀ now, s1.redis.get ("session:" ++ tok) now =
        .ok (if now < t + 86400 then some user.id else none)) ∧
      (∀ (s3 : AppState) (cookie : Option String) (now : Nat)
          (s2 : AppState) (r2 : Response),
        protectedPage s3 cookie now = .ok (s2, r2) → s2 = s3) ∧
      (∀ (s3 : AppState) (cookie : Option String) (now : Nat)
          (s2 : AppState) (r2 : Response),
        home s3 cookie now = .ok (s2, r2) → s2 = s3) := by
  have hset := setex_ok s.redis ("session:" ++ tok) 86400 user.id t havail
  refine ⟨⟨s.db, ⟨true, ⟨"session:" ++ tok, user.id, t + 86400⟩ ::
      s.redis.entries.filter (fun e => !(e.key == "session:" ++ tok))⟩⟩,
    set_session_cookie ⟨303, some "/", [], none, none⟩ tok, ?_, ?_, ?_, ?_⟩
  · simp [login, hauth, hset]
  · intro now
    exact get_cons_self s.redis.entries ("session:" ++ tok) user.id
      (t + 86400) now
  · exact protectedPage_state_eq
  · exact home_state_eq

/-- C8 witness: the fixed 86400-second TTL from login time 5 at the
concrete one-user state. -/
theorem fixed_ttl_no_sliding_witness :
    ∃ s1 resp1,
      login sAlice (some "alice") (some "pw") "tok" 5 = .ok (s1, resp1) ∧
      (∀ now, s1.redis.get ("session:" ++ "tok") now =
        .ok (if now < 5 + 86400 then
          some (User.mk 1 "alice" (pwdHash "pw" 0)).id else none)) ∧
      (∀ (s3 : AppState) (cookie : Option String) (now : Nat)
          (s2 : AppState) (r2 : Response),
        protectedPage s3 cookie now = .ok (s2, r2) → s2 = s3) ∧
      (∀ (s3 : AppState) (cookie : Option String) (now : Nat)
          (s2 : AppState) (r2 : Response),
        home s3 cookie now = .ok (s2, r2) → s2 = s3) :=
  fixed_ttl_no_sliding sAlice "alice" "pw" "tok" 5
    ⟨1, "alice", pwdHash "pw" 0⟩ rfl (by decide)

/-- C10: plaintext passwords are never persisted.  Every user row in any
state reachable from the initial state comes from a registration event in
the trace, and its `password_hash` field is exactly the hasher's output on
the password submitted with that registration; the row holds only the id,
the username and that hash record (whose digest and salt are numbers), so
the plaintext string is stored nowhere in the credential store. -/
theorem passwords_never_stored_plain (evs : List Event) (u : User)
    (h : u ∈ (run AppState.init evs).db.users) :
    ∃ uname pw salt,
      Event.register (some uname) (some pw) salt ∈ evs ∧
      u.username = uname ∧ u.password_hash = pwdHash pw salt := by
  rcases run_users evs AppState.init u h with hmem | hgood
  · exact absurd hmem (List.not_mem_nil u)
  · exact hgood

/-- C10 witness: the single-registration trace. -/
theorem passwords_never_stored_plain_witness :
    ∃ uname pw salt,
      Event.register (some uname) (some pw) salt ∈
        [Event.register (some "alice") (some "pw") 0] ∧
      (User.mk 1 "alice" (pwdHash "pw" 0)).username = uname ∧
      (User.mk 1 "alice" (pwdHash "pw" 0)).password_hash = pwdHash pw salt :=
  passwords_never_stored_plain [Event.register (some "alice") (some "pw") 0]
    ⟨1, "alice", pwdHash "pw" 0⟩ (by decide)
